import Mathlib

/-!
Shallow embedding of `src/native/overlay/modal.rs` (the `ModalOverlay` widget
of iced_aw) together with proofs about its layout, event-dispatch,
mouse-interaction and drawing callbacks.

Coordinates are modelled as exact rational numbers (`Q` below): the source
uses `f32`, and the only arithmetic it performs is addition, subtraction and
halving, so exact rationals are a faithful idealisation (halving is exact in
binary floating point as well).  `Q` is a normalized fraction representation
whose operations are kernel-computable, so concrete instances evaluate by
`rfl` / `decide`.
-/

/-- Exact rational number, kept as a normalized fraction `num / den`
(`den > 0` for every value produced by the operations below). -/
structure Q where
  num : Int
  den : Nat
deriving DecidableEq

/-- Normalize a fraction by dividing out the gcd. -/
def Q.normalize (n : Int) (d : Nat) : Q :=
  if d = 0 then ⟨0, 1⟩
  else ⟨n / (Int.gcd n (Int.ofNat d) : Int), d / Int.gcd n (Int.ofNat d)⟩

instance (n : Nat) : OfNat Q n :=
  ⟨⟨Int.ofNat n, 1⟩⟩

instance : Neg Q :=
  ⟨fun a => ⟨-a.num, a.den⟩⟩

instance : Add Q :=
  ⟨fun a b => Q.normalize (a.num * (b.den : Int) + b.num * (a.den : Int)) (a.den * b.den)⟩

instance : Sub Q :=
  ⟨fun a b => Q.normalize (a.num * (b.den : Int) - b.num * (a.den : Int)) (a.den * b.den)⟩

instance : Mul Q :=
  ⟨fun a b => Q.normalize (a.num * b.num) (a.den * b.den)⟩

instance : Div Q :=
  ⟨fun a b =>
    if b.num < 0 then
      Q.normalize (-(a.num * (b.den : Int))) (a.den * b.num.natAbs)
    else
      Q.normalize (a.num * (b.den : Int)) (a.den * b.num.natAbs)⟩

instance : LE Q :=
  ⟨fun a b => a.num * (b.den : Int) ≤ b.num * (a.den : Int)⟩

instance : LT Q :=
  ⟨fun a b => a.num * (b.den : Int) < b.num * (a.den : Int)⟩

instance (a b : Q) : Decidable (a ≤ b) :=
  inferInstanceAs (Decidable (a.num * (b.den : Int) ≤ b.num * (a.den : Int)))

instance (a b : Q) : Decidable (a < b) :=
  inferInstanceAs (Decidable (a.num * (b.den : Int) < b.num * (a.den : Int)))

/-- `iced_core::Point`. -/
structure Point where
  x : Q
  y : Q
deriving DecidableEq

/-- `Point::default()` is the origin. -/
def Point.default : Point := ⟨0, 0⟩

/-- `iced_core::Size`. -/
structure Size where
  width : Q
  height : Q
deriving DecidableEq

/-- `Size::ZERO`. -/
def Size.ZERO : Size := ⟨0, 0⟩

/-- `iced_core::Vector` (translation offsets). -/
structure Vec where
  x : Q
  y : Q
deriving DecidableEq

/-- `Point + Vector` componentwise translation. -/
def Point.add (p : Point) (v : Vec) : Point := ⟨p.x + v.x, p.y + v.y⟩

/-- `iced_core::Rectangle`. -/
structure Rectangle where
  x : Q
  y : Q
  width : Q
  height : Q
deriving DecidableEq

/-- `Rectangle::contains`: half-open membership test, as in iced_core. -/
def Rectangle.contains (r : Rectangle) (p : Point) : Bool :=
  decide (r.x ≤ p.x) && decide (p.x < r.x + r.width) &&
    decide (r.y ≤ p.y) && decide (p.y < r.y + r.height)

/-- `iced_core::Color` (rgba). -/
structure Color where
  r : Q
  g : Q
  b : Q
  a : Q
deriving DecidableEq

/-- `Color::TRANSPARENT`. -/
def Color.TRANSPARENT : Color := ⟨0, 0, 0, 0⟩

/-- `iced_core::layout::Limits` (the `fill` field is unused by the modal). -/
structure Limits where
  min : Size
  max : Size
deriving DecidableEq

/-- `Limits::new(min, max)`. -/
def Limits.new (min max : Size) : Limits := ⟨min, max⟩

/-- `iced_core::layout::Node`: a bounding rectangle plus child nodes. -/
inductive Node where
  | mk (bounds : Rectangle) (children : List Node)

/-- `Node::bounds()`. -/
def Node.bounds : Node → Rectangle
  | .mk b _ => b

/-- `Node::children()`. -/
def Node.children : Node → List Node
  | .mk _ c => c

/-- `Node::with_children(size, children)`: positioned at the origin. -/
def Node.with_children (size : Size) (children : List Node) : Node :=
  .mk ⟨0, 0, size.width, size.height⟩ children

/-- `Node::move_to(position)`: sets the node position, keeping size and children. -/
def Node.move_to (n : Node) (p : Point) : Node :=
  .mk ⟨p.x, p.y, n.bounds.width, n.bounds.height⟩ n.children

/-- `iced_core::mouse::Cursor`. -/
inductive Cursor where
  | Available (position : Point)
  | Unavailable
deriving DecidableEq

/-- `Cursor::position()`. -/
def Cursor.position : Cursor → Option Point
  | .Available p => some p
  | .Unavailable => none

/-- `iced_core::keyboard::KeyCode` (the modal only distinguishes `Escape`;
other key codes are collapsed into a numbered variant). -/
inductive KeyCode where
  | Escape
  | Enter
  | Tab
  | Other (code : Nat)
deriving DecidableEq

/-- `iced_core::keyboard::Modifiers`. -/
structure Modifiers where
  shift : Bool
  control : Bool
  alt : Bool
  logo : Bool
deriving DecidableEq

/-- `iced_core::keyboard::Event`. -/
inductive KeyboardEvent where
  | KeyPressed (key_code : KeyCode) (modifiers : Modifiers)
  | KeyReleased (key_code : KeyCode) (modifiers : Modifiers)
  | CharacterReceived (c : Char)
  | ModifiersChanged (modifiers : Modifiers)
deriving DecidableEq

/-- `iced_core::mouse::Button`. -/
inductive MouseButton where
  | Left
  | Right
  | Middle
  | Other (code : Nat)
deriving DecidableEq

/-- `iced_core::mouse::ScrollDelta`. -/
inductive ScrollDelta where
  | Lines (x y : Q)
  | Pixels (x y : Q)
deriving DecidableEq

/-- `iced_core::mouse::Event`. -/
inductive MouseEvent where
  | CursorEntered
  | CursorLeft
  | CursorMoved (position : Point)
  | ButtonPressed (button : MouseButton)
  | ButtonReleased (button : MouseButton)
  | WheelScrolled (delta : ScrollDelta)
deriving DecidableEq

/-- `iced_core::touch::Event`. -/
inductive TouchEvent where
  | FingerPressed (id : Nat) (position : Point)
  | FingerMoved (id : Nat) (position : Point)
  | FingerLifted (id : Nat) (position : Point)
  | FingerLost (id : Nat) (position : Point)
deriving DecidableEq

/-- `iced_core::Event` (window and platform events are opaque payloads: the
modal treats them uniformly through its catch-all match arms). -/
inductive Event where
  | Keyboard (e : KeyboardEvent)
  | Mouse (e : MouseEvent)
  | Window (e : Nat)
  | Touch (e : TouchEvent)
  | PlatformSpecific (e : Nat)
deriving DecidableEq

/-- The or-pattern `Event::Mouse(mouse::Event::ButtonPressed(mouse::Button::Left))
| Event::Touch(touch::Event::FingerPressed { .. })` of the backdrop match arm. -/
def Event.isPress : Event → Bool
  | .Mouse (.ButtonPressed .Left) => true
  | .Touch (.FingerPressed _ _) => true
  | _ => false

/-- `iced_core::event::Status`. -/
inductive Status where
  | Ignored
  | Captured
deriving DecidableEq

/-- `event::Status::merge`. -/
def Status.merge : Status → Status → Status
  | .Ignored, .Ignored => .Ignored
  | _, _ => .Captured

/-- `iced_core::Shell`: the message-emission channel; modelled by the list of
messages published so far. -/
structure Shell (M : Type) where
  messages : List M
deriving DecidableEq

/-- `Shell::publish`. -/
def Shell.publish {M : Type} (shell : Shell M) (m : M) : Shell M :=
  ⟨shell.messages ++ [m]⟩

/-- `iced_core::renderer::Style`. -/
structure RendererStyle where
  text_color : Color
deriving DecidableEq

/-- `iced_core::renderer::Quad`. -/
structure Quad where
  bounds : Rectangle
  border_radius : Q
  border_width : Q
  border_color : Color
deriving DecidableEq

/-- A draw command recorded by the renderer, in emission order: either a
`fill_quad` with a background (`B`), or an opaque primitive (`D`) emitted by
the wrapped content. -/
inductive DrawPrimitive (B D : Type) where
  | quad (q : Quad) (background : B)
  | other (d : D)
deriving DecidableEq

/-- Modelled from the spec: the style record produced by the style-lookup
capability (the `crate::style::modal::StyleSheet` trait is not under `src/`);
the spec describes it as "a style record with a background color".  The
background payload type `B` is abstract. -/
structure Appearance (B : Type) where
  background : B
deriving DecidableEq

/-- Modelled from the spec: the style-lookup capability ("keyed by a theme and
a style token"): a theme maps a style token `St` to an `Appearance`. -/
structure Theme (St B : Type) where
  active : St → Appearance B

/-- The wrapped content element, as the bundle of widget callbacks the modal
overlay invokes on it.  `M` = message, `S` = widget-tree state, `C` =
clipboard, `R` = renderer (read-only uses), `I` = mouse interaction,
`St` = style token, `B` = background, `D` = opaque draw primitive.
`on_event` takes (state, event, layout, cursor, renderer, clipboard, shell,
viewport) and returns the status with the final state, clipboard and shell. -/
structure ContentWidget (M S C R I St B D : Type) where
  layout : R → Limits → Node
  on_event : S → Event → Node → Cursor → R → C → Shell M → Rectangle → Status × S × C × Shell M
  mouse_interaction : S → Node → Cursor → Rectangle → R → I
  draw : S → Theme St B → RendererStyle → Node → Cursor → Rectangle → List (DrawPrimitive B D)

/-- `ModalOverlay`: state borrow, content element, the two optional messages
and the style token. -/
structure ModalOverlay (M S C R I St B D : Type) where
  state : S
  content : ContentWidget M S C R I St B D
  backdrop : Option M
  esc : Option M
  style : St

section Operations

variable {M S C R I St B D : Type}

/-- `ModalOverlay::layout` (modal.rs lines 73–94): lay out the content inside
the full available area, then centre it around the anchor `position`, and wrap
it in a node sized to the full available area. -/
def ModalOverlay.layout (self : ModalOverlay M S C R I St B D) (renderer : R)
    (bounds : Size) (position : Point) : Node :=
  let limits := Limits.new Size.ZERO bounds
  let content := self.content.layout renderer limits
  let max_size := limits.max
  let container_half_width := max_size.width / 2
  let container_half_height := max_size.height / 2
  let content_half_width := content.bounds.width / 2
  let content_half_height := content.bounds.height / 2
  let position := position.add
    (Vec.mk (container_half_width - content_half_width)
      (container_half_height - content_half_height))
  let content := content.move_to position
  Node.with_children max_size [content]

/-- The escape branch of `ModalOverlay::on_event` (modal.rs lines 107–120):
`self.esc.as_ref().map_or(Ignored, |esc| match event ...)`, returning the
status together with the resulting shell. -/
def ModalOverlay.esc_check (self : ModalOverlay M S C R I St B D) (event : Event)
    (shell : Shell M) : Status × Shell M :=
  match self.esc with
  | none => (.Ignored, shell)
  | some esc =>
    match event with
    | .Keyboard (.KeyPressed key_code _) =>
      if key_code = KeyCode.Escape then (.Captured, shell.publish esc)
      else (.Ignored, shell)
    | _ => (.Ignored, shell)

/-- The backdrop branch of `ModalOverlay::on_event` (modal.rs lines 122–139):
`self.backdrop.as_ref().zip(layout.children().next()).map_or(Ignored, ...)`,
returning the status together with the resulting shell. -/
def ModalOverlay.backdrop_check (self : ModalOverlay M S C R I St B D) (event : Event)
    (layout : Node) (cursor : Cursor) (shell : Shell M) : Status × Shell M :=
  match self.backdrop, layout.children.head? with
  | some backdrop, some content_layout =>
    if event.isPress then
      if content_layout.bounds.contains (cursor.position.getD Point.default) then
        (.Ignored, shell)
      else
        (.Captured, shell.publish backdrop)
    else (.Ignored, shell)
  | _, _ => (.Ignored, shell)

/-- `ModalOverlay::on_event` (modal.rs lines 96–157): run the escape check,
then the backdrop check, merge the statuses, and forward to the content when
both ignored the event.  The `expect` on the missing content layout is
modelled by `none`. -/
def ModalOverlay.on_event (self : ModalOverlay M S C R I St B D) (event : Event)
    (layout : Node) (cursor : Cursor) (renderer : R) (clipboard : C) (shell : Shell M) :
    Option (Status × S × C × Shell M) :=
  let viewport := layout.bounds
  let esc_result := self.esc_check event shell
  let backdrop_result := self.backdrop_check event layout cursor esc_result.2
  match esc_result.1.merge backdrop_result.1 with
  | .Ignored =>
    match layout.children.head? with
    | none => none
    | some content_layout =>
      some (self.content.on_event self.state event content_layout cursor renderer clipboard
        backdrop_result.2 viewport)
  | .Captured => some (.Captured, self.state, clipboard, backdrop_result.2)

/-- `ModalOverlay::mouse_interaction` (modal.rs lines 159–176): pure
delegation to the content on the first layout child; the `expect` on the
missing content layout is modelled by `none`. -/
def ModalOverlay.mouse_interaction (self : ModalOverlay M S C R I St B D)
    (layout : Node) (cursor : Cursor) (viewport : Rectangle) (renderer : R) : Option I :=
  match layout.children.head? with
  | none => none
  | some content_layout =>
    some (self.content.mouse_interaction self.state content_layout cursor viewport renderer)

/-- `ModalOverlay::draw` (modal.rs lines 178–216): fill a quad over the full
overlay bounds with the active style's background, then draw the content on
the first layout child.  The result is the emitted draw-command list in
order; the `expect` on the missing content layout is modelled by `none`. -/
def ModalOverlay.draw (self : ModalOverlay M S C R I St B D) (theme : Theme St B)
    (style : RendererStyle) (layout : Node) (cursor : Cursor) :
    Option (List (DrawPrimitive B D)) :=
  let bounds := layout.bounds
  let style_sheet := theme.active self.style
  let backdrop_quad : DrawPrimitive B D :=
    .quad ⟨bounds, 0, 0, Color.TRANSPARENT⟩ style_sheet.background
  match layout.children.head? with
  | none => none
  | some content_layout =>
    some (backdrop_quad :: self.content.draw self.state theme style content_layout cursor bounds)

end Operations

/-- No keyboard modifiers held. -/
def noMods : Modifiers := ⟨false, false, false, false⟩

/-- An Escape key press event. -/
def escEvent : Event := .Keyboard (.KeyPressed .Escape noMods)

/-- A primary (left) mouse button press event. -/
def pressEvent : Event := .Mouse (.ButtonPressed .Left)

/-- A concrete content widget (natural size 100×50) used to instantiate the
general theorems on concrete inputs. -/
def sampleContent : ContentWidget Nat Nat Nat Unit Nat Unit Nat Nat where
  layout := fun _ _ => Node.mk ⟨0, 0, 100, 50⟩ []
  on_event := fun s _ _ _ _ c sh _ => (Status.Ignored, s + 1, c, sh)
  mouse_interaction := fun _ _ _ _ _ => 7
  draw := fun _ _ _ _ _ _ => [DrawPrimitive.other 3]

/-- A second concrete content widget with a different event handler. -/
def sampleContent2 : ContentWidget Nat Nat Nat Unit Nat Unit Nat Nat where
  layout := fun _ _ => Node.mk ⟨0, 0, 100, 50⟩ []
  on_event := fun _ _ _ _ _ c sh _ => (Status.Captured, 42, c, sh)
  mouse_interaction := fun _ _ _ _ _ => 9
  draw := fun _ _ _ _ _ _ => [DrawPrimitive.other 4]

/-- A concrete modal overlay with both messages registered (backdrop `1`,
escape `2`). -/
def sampleOverlay : ModalOverlay Nat Nat Nat Unit Nat Unit Nat Nat where
  state := 0
  content := sampleContent
  backdrop := some 1
  esc := some 2
  style := ()

/-- A concrete theme whose lookup always yields background `5`. -/
def sampleTheme : Theme Unit Nat := ⟨fun _ => ⟨5⟩⟩

/-- A concrete renderer style. -/
def sampleRStyle : RendererStyle := ⟨Color.TRANSPARENT⟩

/-- A concrete content child layout node with bounds 10×10 at (5,5). -/
def childNode : Node := Node.mk ⟨5, 5, 10, 10⟩ []

/-- A concrete overlay layout holding one content child. -/
def sampleLayout : Node := Node.mk ⟨0, 0, 400, 300⟩ [childNode]

/-- A concrete overlay layout with no content child. -/
def emptyLayout : Node := Node.mk ⟨0, 0, 400, 300⟩ []

/-- Merging to `Ignored` forces both statuses to be `Ignored`. -/
theorem Status.merge_eq_ignored {s t : Status} (h : s.merge t = Status.Ignored) :
    s = Status.Ignored ∧ t = Status.Ignored := by
  cases s <;> cases t <;> simp_all [Status.merge]

/-- Merging with `Ignored` on the right is the identity. -/
theorem Status.merge_ignored_right (s : Status) : s.merge Status.Ignored = s := by
  cases s <;> rfl

/-- Publishing appends exactly one message. -/
theorem Shell.publish_length {M : Type} (shell : Shell M) (m : M) :
    (shell.publish m).messages.length = shell.messages.length + 1 := by
  simp [Shell.publish]

/-- The escape check either ignores the event leaving the shell unchanged, or
captures an Escape key press and publishes the registered escape message. -/
theorem esc_check_shape {M S C R I St B D : Type} (self : ModalOverlay M S C R I St B D)
    (event : Event) (shell : Shell M) :
    self.esc_check event shell = (Status.Ignored, shell) ∨
      ∃ m mods, self.esc = some m ∧
        event = Event.Keyboard (KeyboardEvent.KeyPressed KeyCode.Escape mods) ∧
        self.esc_check event shell = (Status.Captured, shell.publish m) := by
  unfold ModalOverlay.esc_check
  rcases hesc : self.esc with _ | m
  · exact Or.inl rfl
  · cases event with
    | Keyboard ke =>
      cases ke with
      | KeyPressed kc mods =>
        by_cases hk : kc = KeyCode.Escape
        · subst hk
          exact Or.inr ⟨m, mods, rfl, rfl, by simp⟩
        · exact Or.inl (by simp [hk])
      | KeyReleased kc mods => exact Or.inl rfl
      | CharacterReceived c => exact Or.inl rfl
      | ModifiersChanged mods => exact Or.inl rfl
    | Mouse e => exact Or.inl rfl
    | Window e => exact Or.inl rfl
    | Touch e => exact Or.inl rfl
    | PlatformSpecific e => exact Or.inl rfl

/-- The backdrop check either ignores the event leaving the shell unchanged,
or captures a primary press and publishes the registered backdrop message. -/
theorem backdrop_check_shape {M S C R I St B D : Type} (self : ModalOverlay M S C R I St B D)
    (event : Event) (layout : Node) (cursor : Cursor) (shell : Shell M) :
    self.backdrop_check event layout cursor shell = (Status.Ignored, shell) ∨
      ∃ m, self.backdrop = some m ∧ event.isPress = true ∧
        self.backdrop_check event layout cursor shell = (Status.Captured, shell.publish m) := by
  unfold ModalOverlay.backdrop_check
  rcases hb : self.backdrop with _ | m
  · exact Or.inl rfl
  · rcases hl : layout.children.head? with _ | child
    · exact Or.inl rfl
    · cases hp : event.isPress with
      | false => exact Or.inl (by simp [hp])
      | true =>
        cases hc : child.bounds.contains (cursor.position.getD Point.default) with
        | true => exact Or.inl (by simp [hp, hc])
        | false => exact Or.inr ⟨m, rfl, rfl, by simp [hp, hc]⟩

/-- The escape check ignores every primary press or touch start. -/
theorem esc_check_of_press {M S C R I St B D : Type} (self : ModalOverlay M S C R I St B D)
    (event : Event) (shell : Shell M) (h : event.isPress = true) :
    self.esc_check event shell = (Status.Ignored, shell) := by
  rcases esc_check_shape self event shell with h' | ⟨m, mods, _, heq, _⟩
  · exact h'
  · subst heq
    simp [Event.isPress] at h

/-- The backdrop check ignores every event that is not a primary press. -/
theorem backdrop_check_of_not_press {M S C R I St B D : Type}
    (self : ModalOverlay M S C R I St B D) (event : Event) (layout : Node)
    (cursor : Cursor) (shell : Shell M) (h : event.isPress = false) :
    self.backdrop_check event layout cursor shell = (Status.Ignored, shell) := by
  rcases backdrop_check_shape self event layout cursor shell with h' | ⟨m, _, hp, _⟩
  · exact h'
  · rw [h] at hp
    cases hp

/-- The backdrop check ignores every event when the layout has no child. -/
theorem backdrop_check_no_child {M S C R I St B D : Type}
    (self : ModalOverlay M S C R I St B D) (event : Event) (layout : Node)
    (cursor : Cursor) (shell : Shell M) (h : layout.children.head? = none) :
    self.backdrop_check event layout cursor shell = (Status.Ignored, shell) := by
  unfold ModalOverlay.backdrop_check
  rw [h]
  rcases hb : self.backdrop with _ | m <;> rfl

/-- Unfolding equation for `ModalOverlay.on_event` in terms of the two checks. -/
theorem on_event_unfold {M S C R I St B D : Type} (self : ModalOverlay M S C R I St B D)
    (event : Event) (layout : Node) (cursor : Cursor) (renderer : R) (clipboard : C)
    (shell : Shell M) :
    self.on_event event layout cursor renderer clipboard shell =
      (match (self.esc_check event shell).1.merge
          (self.backdrop_check event layout cursor (self.esc_check event shell).2).1 with
      | .Ignored =>
        match layout.children.head? with
        | none => none
        | some content_layout =>
          some (self.content.on_event self.state event content_layout cursor renderer clipboard
            (self.backdrop_check event layout cursor (self.esc_check event shell).2).2
            layout.bounds)
      | .Captured => some (.Captured, self.state, clipboard,
          (self.backdrop_check event layout cursor (self.esc_check event shell).2).2)) := rfl

/-- C1: for a primary mouse press or touch start with a registered backdrop
message and a content child present in the layout, a cursor position outside
the content child's bounding rectangle makes `on_event` publish exactly the
backdrop message and return `Captured`; a cursor position inside the content
child's bounding rectangle leaves both checks ignored, so no message is
published by this layer and the backdrop check returns `Ignored`. -/
theorem modal_backdrop_press_outside_captures
    {M S C R I St B D : Type} (self : ModalOverlay M S C R I St B D)
    (event : Event) (layout : Node) (p : Point) (renderer : R) (clipboard : C)
    (shell : Shell M) (b : M) (child : Node) (rest : List Node)
    (hpress : event.isPress = true) (hb : self.backdrop = some b)
    (hch : layout.children = child :: rest) :
    (child.bounds.contains p = false →
      self.on_event event layout (Cursor.Available p) renderer clipboard shell =
        some (Status.Captured, self.state, clipboard, shell.publish b)) ∧
    (child.bounds.contains p = true →
      self.esc_check event shell = (Status.Ignored, shell) ∧
      self.backdrop_check event layout (Cursor.Available p) shell =
        (Status.Ignored, shell)) := by
  have hesc : self.esc_check event shell = (Status.Ignored, shell) :=
    esc_check_of_press self event shell hpress
  have hhead : layout.children.head? = some child := by rw [hch]; rfl
  constructor
  · intro hc
    have hback : self.backdrop_check event layout (Cursor.Available p) shell =
        (Status.Captured, shell.publish b) := by
      unfold ModalOverlay.backdrop_check
      rw [hb, hhead]
      simp [hpress, Cursor.position, hc]
    rw [on_event_unfold, hesc, hback]
    rfl
  · intro hc
    refine ⟨hesc, ?_⟩
    unfold ModalOverlay.backdrop_check
    rw [hb, hhead]
    simp [hpress, Cursor.position, hc]

/-- C1 witness: a left press at (50,50), outside the content child at
(5,5)–(15,15), publishes the backdrop message `1` and is captured. -/
theorem modal_backdrop_press_outside_captures_witness :
    sampleOverlay.on_event pressEvent sampleLayout (Cursor.Available ⟨50, 50⟩) () 0 ⟨[]⟩ =
      some (Status.Captured, 0, 0, ⟨[1]⟩) :=
  (modal_backdrop_press_outside_captures sampleOverlay pressEvent sampleLayout
    ⟨50, 50⟩ () 0 ⟨[]⟩ 1 childNode [] (by decide) rfl rfl).1 (by decide)

/-- C2: the layout operation places the content child at
`anchor + (available/2 − content/2)` on each axis independently; in
particular available size 400×300, content natural size 100×50 and anchor
(0,0) put the content at (150,125). -/
theorem modal_layout_centers_content :
    (∀ {M S C R I St B D : Type} (self : ModalOverlay M S C R I St B D) (renderer : R)
      (bounds : Size) (position : Point),
      (self.layout renderer bounds position).children =
        [(self.content.layout renderer (Limits.new Size.ZERO bounds)).move_to
          (Point.mk
            (position.x + (bounds.width / 2 -
              (self.content.layout renderer (Limits.new Size.ZERO bounds)).bounds.width / 2))
            (position.y + (bounds.height / 2 -
              (self.content.layout renderer (Limits.new Size.ZERO bounds)).bounds.height / 2)))]) ∧
    (sampleOverlay.layout () ⟨400, 300⟩ ⟨0, 0⟩).children =
      [Node.mk ⟨150, 125, 100, 50⟩ []] := by
  constructor
  · intro M S C R I St B D self renderer bounds position
    rfl
  · rfl

/-- C4: the escape check on an Escape key press publishes the registered
escape message and returns `Captured` (and the whole `on_event` then captures
with exactly that message published); with no escape message registered the
escape check publishes nothing and returns `Ignored`. -/
theorem modal_esc_check_escape_key
    {M S C R I St B D : Type} (self : ModalOverlay M S C R I St B D)
    (mods : Modifiers) (layout : Node) (cursor : Cursor) (renderer : R) (clipboard : C)
    (shell : Shell M) :
    (∀ m, self.esc = some m →
      self.esc_check (Event.Keyboard (KeyboardEvent.KeyPressed KeyCode.Escape mods)) shell =
          (Status.Captured, shell.publish m) ∧
        self.on_event (Event.Keyboard (KeyboardEvent.KeyPressed KeyCode.Escape mods)) layout
            cursor renderer clipboard shell =
          some (Status.Captured, self.state, clipboard, shell.publish m)) ∧
    (self.esc = none →
      self.esc_check (Event.Keyboard (KeyboardEvent.KeyPressed KeyCode.Escape mods)) shell =
        (Status.Ignored, shell)) := by
  constructor
  · intro m hm
    have hesc : self.esc_check (Event.Keyboard (KeyboardEvent.KeyPressed KeyCode.Escape mods))
        shell = (Status.Captured, shell.publish m) := by
      unfold ModalOverlay.esc_check
      rw [hm]
      simp
    refine ⟨hesc, ?_⟩
    have hback : self.backdrop_check
        (Event.Keyboard (KeyboardEvent.KeyPressed KeyCode.Escape mods)) layout cursor
        (shell.publish m) = (Status.Ignored, shell.publish m) :=
      backdrop_check_of_not_press self _ layout cursor (shell.publish m) rfl
    rw [on_event_unfold, hesc]
    rw [show ((Status.Captured, shell.publish m) :
        Status × Shell M).2 = shell.publish m from rfl, hback]
    rfl
  · intro hm
    unfold ModalOverlay.esc_check
    rw [hm]

/-- C4 witness: with escape message `2` registered, an Escape press is
captured and publishes exactly `2`. -/
theorem modal_esc_check_escape_key_witness :
    sampleOverlay.esc_check escEvent ⟨[]⟩ = (Status.Captured, ⟨[2]⟩) ∧
      sampleOverlay.on_event escEvent sampleLayout Cursor.Unavailable () 0 ⟨[]⟩ =
        some (Status.Captured, 0, 0, ⟨[2]⟩) :=
  (modal_esc_check_escape_key sampleOverlay noMods sampleLayout Cursor.Unavailable
    () 0 ⟨[]⟩).1 2 rfl

/-- C6: for every available size and anchor, `layout` returns a node sized to
the full available area (anchored at the origin) with exactly one child, the
content's layout node. -/
theorem modal_layout_full_size_single_child
    {M S C R I St B D : Type} (self : ModalOverlay M S C R I St B D) (renderer : R)
    (bounds : Size) (position : Point) :
    (self.layout renderer bounds position).bounds =
        ⟨0, 0, bounds.width, bounds.height⟩ ∧
      ∃ p, (self.layout renderer bounds position).children =
        [(self.content.layout renderer (Limits.new Size.ZERO bounds)).move_to p] :=
  ⟨rfl, _, rfl⟩

/-- The escape check does not depend on the content element. -/
theorem esc_check_content_free {M S C R I St B D : Type}
    (self : ModalOverlay M S C R I St B D) (c2 : ContentWidget M S C R I St B D)
    (event : Event) (shell : Shell M) :
    (ModalOverlay.mk self.state c2 self.backdrop self.esc self.style).esc_check event shell =
      self.esc_check event shell := rfl

/-- The backdrop check does not depend on the content element. -/
theorem backdrop_check_content_free {M S C R I St B D : Type}
    (self : ModalOverlay M S C R I St B D) (c2 : ContentWidget M S C R I St B D)
    (event : Event) (layout : Node) (cursor : Cursor) (shell : Shell M) :
    (ModalOverlay.mk self.state c2 self.backdrop self.esc self.style).backdrop_check event
        layout cursor shell =
      self.backdrop_check event layout cursor shell := rfl

/-- C3: when the merge of the escape and backdrop checks captures the event,
`on_event` returns `Captured` without invoking the content's event handler
(the result is the same for every content event handler); when the merge
ignores the event and the content child is present, the event is forwarded to
the content's handler with the same event, cursor, renderer, clipboard and an
unchanged shell. -/
theorem modal_on_event_merge_and_forward
    {M S C R I St B D : Type} (self : ModalOverlay M S C R I St B D)
    (event : Event) (layout : Node) (cursor : Cursor) (renderer : R) (clipboard : C)
    (shell : Shell M) :
    ((self.esc_check event shell).1.merge
        (self.backdrop_check event layout cursor (self.esc_check event shell).2).1 =
          Status.Captured →
      ∀ content2 : ContentWidget M S C R I St B D,
        (ModalOverlay.mk self.state content2 self.backdrop self.esc self.style).on_event
            event layout cursor renderer clipboard shell =
          some (Status.Captured, self.state, clipboard,
            (self.backdrop_check event layout cursor (self.esc_check event shell).2).2)) ∧
    (∀ child rest, layout.children = child :: rest →
      (self.esc_check event shell).1.merge
        (self.backdrop_check event layout cursor (self.esc_check event shell).2).1 =
          Status.Ignored →
      self.on_event event layout cursor renderer clipboard shell =
        some (self.content.on_event self.state event child cursor renderer clipboard shell
          layout.bounds)) := by
  constructor
  · intro hmerge content2
    simp only [ModalOverlay.on_event, esc_check_content_free, backdrop_check_content_free,
      hmerge]
  · intro child rest hch hmerge
    obtain ⟨hesc1, hback1⟩ := Status.merge_eq_ignored hmerge
    have hesc : self.esc_check event shell = (Status.Ignored, shell) := by
      rcases esc_check_shape self event shell with h | ⟨m, mods, _, _, h⟩
      · exact h
      · rw [h] at hesc1
        simp at hesc1
    have hback1' : (self.backdrop_check event layout cursor shell).1 = Status.Ignored := by
      rw [hesc] at hback1
      exact hback1
    have hback : self.backdrop_check event layout cursor shell = (Status.Ignored, shell) := by
      rcases backdrop_check_shape self event layout cursor shell with h | ⟨m, _, _, h⟩
      · exact h
      · rw [h] at hback1'
        simp at hback1'
    have hhead : layout.children.head? = some child := by rw [hch]; rfl
    simp only [ModalOverlay.on_event, hesc, hback, hhead, Status.merge]

/-- C3 witness: an Escape press is captured by the escape check, and the
result does not depend on the content's event handler. -/
theorem modal_on_event_merge_and_forward_witness :
    (ModalOverlay.mk 0 sampleContent2 (some 1) (some 2) ()).on_event escEvent sampleLayout
        Cursor.Unavailable () 0 ⟨[]⟩ =
      some (Status.Captured, 0, 0, ⟨[2]⟩) :=
  (modal_on_event_merge_and_forward sampleOverlay escEvent sampleLayout Cursor.Unavailable
    () 0 ⟨[]⟩).1 (by decide) sampleContent2

/-- C5 counterexample: `on_event` on a layout without a content child does
NOT unconditionally abort — with the escape message registered, an Escape key
press is captured (publishing the escape message) and the missing child is
never touched. -/
theorem modal_on_event_missing_child_no_abort :
    sampleOverlay.on_event escEvent emptyLayout Cursor.Unavailable () 0 ⟨[]⟩ =
      some (Status.Captured, 0, 0, ⟨[2]⟩) := by decide

/-- C5 (amended): on a layout whose content child is absent,
`mouse_interaction` and `draw` always abort with the fatal assertion; but
`on_event` aborts exactly when the escape check does not capture the event —
when the escape check captures (registered escape message and Escape key
press), `on_event` returns `Captured` normally. -/
theorem modal_missing_child_abort_modes
    {M S C R I St B D : Type} (self : ModalOverlay M S C R I St B D)
    (event : Event) (layout : Node) (cursor : Cursor) (viewport : Rectangle)
    (renderer : R) (clipboard : C) (shell : Shell M) (theme : Theme St B)
    (style : RendererStyle) (h : layout.children = []) :
    self.mouse_interaction layout cursor viewport renderer = none ∧
    self.draw theme style layout cursor = none ∧
    ((self.esc_check event shell).1 = Status.Ignored →
      self.on_event event layout cursor renderer clipboard shell = none) ∧
    ((self.esc_check event shell).1 = Status.Captured →
      self.on_event event layout cursor renderer clipboard shell =
        some (Status.Captured, self.state, clipboard, (self.esc_check event shell).2)) := by
  have hhead : layout.children.head? = none := by rw [h]; rfl
  have hback : ∀ sh : Shell M,
      self.backdrop_check event layout cursor sh = (Status.Ignored, sh) :=
    fun sh => backdrop_check_no_child self event layout cursor sh hhead
  refine ⟨?_, ?_, ?_, ?_⟩
  · unfold ModalOverlay.mouse_interaction
    rw [hhead]
  · unfold ModalOverlay.draw
    rw [hhead]
  · intro hesc
    rw [on_event_unfold, hback]
    simp only [Status.merge_ignored_right, hesc, hhead]
  · intro hesc
    rw [on_event_unfold, hback]
    simp only [Status.merge_ignored_right, hesc, hhead]

/-- C5 witness for the amended statement: on a childless layout,
`mouse_interaction` aborts, `draw` aborts, and an Escape press (whose escape
check captures) makes `on_event` return `Captured` instead of aborting. -/
theorem modal_missing_child_abort_modes_witness :
    sampleOverlay.mouse_interaction emptyLayout Cursor.Unavailable ⟨0, 0, 400, 300⟩ () =
        none ∧
      sampleOverlay.draw sampleTheme sampleRStyle emptyLayout Cursor.Unavailable = none ∧
      sampleOverlay.on_event escEvent emptyLayout Cursor.Unavailable () 0 ⟨[]⟩ =
        some (Status.Captured, 0, 0, ⟨[2]⟩) := by
  have h := modal_missing_child_abort_modes sampleOverlay escEvent emptyLayout
    Cursor.Unavailable ⟨0, 0, 400, 300⟩ () 0 ⟨[]⟩ sampleTheme sampleRStyle rfl
  exact ⟨h.1, h.2.1, h.2.2.2 rfl⟩

/-- C7: `draw` emits the backdrop quad — covering the full overlay bounds,
filled with the background of the active theme lookup for the stored style
token — strictly before every draw command of the wrapped content. -/
theorem modal_draw_backdrop_before_content
    {M S C R I St B D : Type} (self : ModalOverlay M S C R I St B D)
    (theme : Theme St B) (style : RendererStyle) (layout : Node) (cursor : Cursor)
    (child : Node) (rest : List Node) (hch : layout.children = child :: rest) :
    self.draw theme style layout cursor =
      some (DrawPrimitive.quad ⟨layout.bounds, 0, 0, Color.TRANSPARENT⟩
          (theme.active self.style).background ::
        self.content.draw self.state theme style child cursor layout.bounds) := by
  have hhead : layout.children.head? = some child := by rw [hch]; rfl
  unfold ModalOverlay.draw
  rw [hhead]

/-- C7 witness: the concrete overlay first fills the full bounds with the
theme's background `5`, then emits the content's draw command. -/
theorem modal_draw_backdrop_before_content_witness :
    sampleOverlay.draw sampleTheme sampleRStyle sampleLayout Cursor.Unavailable =
      some [DrawPrimitive.quad ⟨⟨0, 0, 400, 300⟩, 0, 0, Color.TRANSPARENT⟩ 5,
        DrawPrimitive.other 3] :=
  modal_draw_backdrop_before_content sampleOverlay sampleTheme sampleRStyle sampleLayout
    Cursor.Unavailable childNode [] rfl

/-- C8: `mouse_interaction` returns exactly the wrapped content's
`mouse_interaction` applied to the content child layout with the same cursor,
viewport and renderer. -/
theorem modal_mouse_interaction_delegates
    {M S C R I St B D : Type} (self : ModalOverlay M S C R I St B D)
    (layout : Node) (cursor : Cursor) (viewport : Rectangle) (renderer : R)
    (child : Node) (rest : List Node) (hch : layout.children = child :: rest) :
    self.mouse_interaction layout cursor viewport renderer =
      some (self.content.mouse_interaction self.state child cursor viewport renderer) := by
  have hhead : layout.children.head? = some child := by rw [hch]; rfl
  unfold ModalOverlay.mouse_interaction
  rw [hhead]

/-- C8 witness: the concrete overlay reports exactly the content's
interaction value `7`. -/
theorem modal_mouse_interaction_delegates_witness :
    sampleOverlay.mouse_interaction sampleLayout (Cursor.Available ⟨7, 7⟩)
        ⟨0, 0, 400, 300⟩ () = some 7 :=
  modal_mouse_interaction_delegates sampleOverlay sampleLayout (Cursor.Available ⟨7, 7⟩)
    ⟨0, 0, 400, 300⟩ () childNode [] rfl

/-- C9: with an unavailable cursor position, a primary press with a
registered backdrop message is resolved at the default origin (0,0): the
backdrop message is published and the event captured exactly when (0,0) lies
outside the content child's bounding rectangle. -/
theorem modal_backdrop_unavailable_cursor_origin
    {M S C R I St B D : Type} (self : ModalOverlay M S C R I St B D)
    (event : Event) (layout : Node) (renderer : R) (clipboard : C)
    (shell : Shell M) (b : M) (child : Node) (rest : List Node)
    (hpress : event.isPress = true) (hb : self.backdrop = some b)
    (hch : layout.children = child :: rest) :
    (child.bounds.contains ⟨0, 0⟩ = false →
      self.on_event event layout Cursor.Unavailable renderer clipboard shell =
        some (Status.Captured, self.state, clipboard, shell.publish b)) ∧
    (child.bounds.contains ⟨0, 0⟩ = true →
      self.backdrop_check event layout Cursor.Unavailable shell =
        (Status.Ignored, shell)) := by
  have hesc : self.esc_check event shell = (Status.Ignored, shell) :=
    esc_check_of_press self event shell hpress
  have hhead : layout.children.head? = some child := by rw [hch]; rfl
  constructor
  · intro hc
    have hback : self.backdrop_check event layout Cursor.Unavailable shell =
        (Status.Captured, shell.publish b) := by
      unfold ModalOverlay.backdrop_check
      rw [hb, hhead]
      simp [hpress, Cursor.position, Point.default, hc]
    rw [on_event_unfold, hesc, hback]
    rfl
  · intro hc
    unfold ModalOverlay.backdrop_check
    rw [hb, hhead]
    simp [hpress, Cursor.position, Point.default, hc]

/-- C9 witness: the content child at (5,5)–(15,15) does not contain the
origin, so a press with unavailable cursor publishes the backdrop message. -/
theorem modal_backdrop_unavailable_cursor_origin_witness :
    sampleOverlay.on_event pressEvent sampleLayout Cursor.Unavailable () 0 ⟨[]⟩ =
      some (Status.Captured, 0, 0, ⟨[1]⟩) :=
  (modal_backdrop_unavailable_cursor_origin sampleOverlay pressEvent sampleLayout () 0
    ⟨[]⟩ 1 childNode [] (by decide) rfl rfl).1 (by decide)

/-- C10: per `on_event` call the overlay layer itself publishes at most one
message: running the escape check and then the backdrop check grows the shell
by at most one message; if the escape check captured, the backdrop check is
ignored; the escape check changes the shell only for keyboard events and the
backdrop check only for primary mouse/touch presses, so the two never both
fire. -/
theorem modal_at_most_one_publish
    {M S C R I St B D : Type} (self : ModalOverlay M S C R I St B D)
    (event : Event) (layout : Node) (cursor : Cursor) (shell : Shell M) :
    ((self.backdrop_check event layout cursor
        (self.esc_check event shell).2).2.messages.length ≤
      shell.messages.length + 1) ∧
    ((self.esc_check event shell).1 = Status.Captured →
      (self.backdrop_check event layout cursor (self.esc_check event shell).2).1 =
        Status.Ignored) ∧
    ((self.esc_check event shell).2 ≠ shell → ∃ ke, event = Event.Keyboard ke) ∧
    ((self.backdrop_check event layout cursor (self.esc_check event shell).2).2 ≠
        (self.esc_check event shell).2 → event.isPress = true) := by
  rcases esc_check_shape self event shell with hesc | ⟨m, mods, _, hevent, hesc⟩
  · rcases backdrop_check_shape self event layout cursor
        (self.esc_check event shell).2 with hback | ⟨m', _, hp, hback⟩
    · refine ⟨?_, ?_, ?_, ?_⟩
      · rw [hback, hesc]
        exact Nat.le_succ _
      · intro hcap
        rw [hesc] at hcap
        simp at hcap
      · intro hne
        rw [hesc] at hne
        simp at hne
      · intro hne
        rw [hback] at hne
        simp at hne
    · refine ⟨?_, ?_, ?_, ?_⟩
      · rw [hback, hesc]
        simp [Shell.publish]
      · intro hcap
        rw [hesc] at hcap
        simp at hcap
      · intro hne
        rw [hesc] at hne
        simp at hne
      · intro _
        exact hp
  · have hp : event.isPress = false := by
      rw [hevent]
      rfl
    have hback : self.backdrop_check event layout cursor (self.esc_check event shell).2 =
        (Status.Ignored, (self.esc_check event shell).2) :=
      backdrop_check_of_not_press self event layout cursor _ hp
    refine ⟨?_, ?_, ?_, ?_⟩
    · rw [hback, hesc]
      simp [Shell.publish]
    · intro _
      rw [hback]
    · intro _
      exact ⟨_, hevent⟩
    · intro hne
      rw [hback] at hne
      simp at hne

/-- C10 witness: after the escape check captured an Escape press, the
backdrop check is ignored. -/
theorem modal_at_most_one_publish_witness :
    (sampleOverlay.backdrop_check escEvent sampleLayout Cursor.Unavailable
        (sampleOverlay.esc_check escEvent ⟨[]⟩).2).1 = Status.Ignored :=
  (modal_at_most_one_publish sampleOverlay escEvent sampleLayout Cursor.Unavailable
    ⟨[]⟩).2.1 (by decide)
